import Mathlib

/-!
Verification of the rate-limited HTTP dispatch engine and gateway connection
state of the Dis-Snek / naff Discord client library.

The definitions below are a shallow embedding of the Python source:
  * `src/naff/api/http/http_client.py` — `GlobalLock`, `BucketLock`,
    `HTTPClient._process_payload`, `HTTPClient.request`,
    `HTTPClient._raise_exception`;
  * `src/naff/api/gateway/state.py` — `ConnectionState._ws_connect`,
    `ConnectionState.change_presence`.

Machine integers do not occur; Python ints are `Int`, Python floats that
carry rate-limit delays are embedded as `Rat` (only parsing success and
exact decimal values matter to the claims, no rounding behaviour is used).
Python exceptions are explicit `Except`/sum results.
-/

namespace NaffModel

/-! ## Python primitive models -/

/-- ASCII whitespace stripped by Python's `str` coercions. -/
def isPySpace (c : Char) : Bool :=
  c = ' ' ∨ c = '\t' ∨ c = '\n' ∨ c = '\r'

/-- Python `s.strip()` on the character list of a string. -/
def pyStrip (l : List Char) : List Char :=
  ((l.dropWhile isPySpace).reverse.dropWhile isPySpace).reverse

/-- Numeric value of a digit run. -/
def digitsVal (l : List Char) : Nat :=
  l.foldl (fun acc c => acc * 10 + (c.toNat - 48)) 0

/-- Sign handling shared by `int()` and `float()`: strip whitespace, peel one
optional leading `+`/`-`. -/
def pySignSplit (s : String) : Bool × List Char :=
  match pyStrip s.data with
  | '-' :: rest => (true, rest)
  | '+' :: rest => (false, rest)
  | l => (false, l)

/-- Model of Python `int(s)` applied to a string: optional surrounding
whitespace, optional sign, then a nonempty digit run.  Returns `none` where
CPython raises `ValueError`.  (Underscore separators and non-decimal forms
are outside the inputs this development evaluates.) -/
def pyInt (s : String) : Option Int :=
  let (neg, core) := pySignSplit s
  if core.length > 0 ∧ core.all Char.isDigit then
    let n : Nat := digitsVal core
    if neg then some (-(n : Int)) else some (n : Int)
  else none

/-- Model of Python `float(s)` applied to a string, restricted to plain
decimal forms `[sign] digits [. digits]` (with at least one digit overall):
the rate-limit headers the code parses are exact decimals, so the value is
embedded as a `Rat`.  Returns `none` where CPython raises `ValueError`. -/
def pyFloat (s : String) : Option Rat :=
  let (neg, core) := pySignSplit s
  let signed : Rat → Rat := fun v => if neg then -v else v
  match core.span (fun c => c != '.') with
  | (ip, []) =>
    if ip.length > 0 ∧ ip.all Char.isDigit then
      some (signed (digitsVal ip : Rat))
    else none
  | (ip, _dot :: fp) =>
    if (ip.length + fp.length > 0) ∧ ip.all Char.isDigit ∧ fp.all Char.isDigit then
      some (signed ((digitsVal ip : Rat) + (digitsVal fp : Rat) / ((10 : Rat) ^ fp.length)))
    else none

/-- Response headers as a multidict with case-insensitive keys, mirroring
`aiohttp`'s `CIMultiDictProxy` as far as the client reads it (`.get`). -/
abbrev Headers : Type := List (String × String)

/-- ASCII-lowercase a string (kernel-reducible stand-in for `str.lower`). -/
def strLower (s : String) : List Char :=
  s.data.map Char.toLower

/-- `CIMultiDictProxy.get(key)`: first value whose key matches
case-insensitively, else `None`. -/
def hGet (h : Headers) (key : String) : Option String :=
  (List.find? (fun p => strLower p.1 == strLower key) h).map (fun p => p.2)

/-! ## BucketLock state and `ingest_ratelimit_header`
(`http_client.py` lines 71-106) -/

/-- The mutable rate-limit fields of `BucketLock` (`__init__`, lines 74-82).
The asyncio lock itself is modelled separately in the concurrency section. -/
structure BucketLock where
  bucket_hash : Option String
  limit : Int
  remaining : Int
  delta : Rat
deriving Repr, DecidableEq

/-- A fresh `BucketLock()`: hash unknown, limit/remaining `-1`, delta `0.0`. -/
def BucketLock.init : BucketLock :=
  { bucket_hash := none, limit := -1, remaining := -1, delta := 0 }

/-- `int(header.get("x-ratelimit-limit") or -1)` (line 104).  `or` takes the
default when the header is missing or the empty string (falsy); a present
non-numeric value makes `int` raise `ValueError` (`none` here). -/
def parseLimit (h : Headers) : Option Int :=
  match hGet h "x-ratelimit-limit" with
  | none => some (-1)
  | some s => if s = "" then some (-1) else pyInt s

/-- `int(header.get("x-ratelimit-remaining") or -1)` (line 105). -/
def parseRemaining (h : Headers) : Option Int :=
  match hGet h "x-ratelimit-remaining" with
  | none => some (-1)
  | some s => if s = "" then some (-1) else pyInt s

/-- `float(header.get("x-ratelimit-reset-after", 0.0))` (line 106): absent
key defaults to `0.0`; a present value goes through `float()`. -/
def parseResetAfter (h : Headers) : Option Rat :=
  match hGet h "x-ratelimit-reset-after" with
  | none => some 0
  | some s => pyFloat s

/-- `BucketLock.ingest_ratelimit_header` (lines 96-106).  The four
assignments run in source order; a `ValueError` in one of the numeric
conversions aborts the remaining assignments, leaving the state partially
updated, and the exception propagates (second component `some e`). -/
def ingest_ratelimit_header (b : BucketLock) (h : Headers) :
    BucketLock × Option String :=
  let b1 := { b with bucket_hash := hGet h "x-ratelimit-bucket" }
  match parseLimit h with
  | none => (b1, some "ValueError: invalid literal for int()")
  | some lim =>
    let b2 := { b1 with limit := lim }
    match parseRemaining h with
    | none => (b2, some "ValueError: invalid literal for int()")
    | some rem =>
      let b3 := { b2 with remaining := rem }
      match parseResetAfter h with
      | none => (b3, some "ValueError: could not convert string to float")
      | some d => ({ b3 with delta := d }, none)

/-! ## The request dispatcher (`HTTPClient.request`, lines 236-348)

One HTTP response per send attempt is drawn from an environment list.  The
model covers the HTTP-response paths of the `for attempt in
range(self._max_attempts)` loop; transport-level `OSError`s (lines 344-348)
and the session re-login check (lines 278-279) are not part of the response
space the claims below exercise.  Lock acquisition/release effects are
modelled separately in the concurrency section; here the rate-limit actions
the loop performs are recorded in a trace. -/

/-- The parts of an HTTP response that `request` inspects: the status, the
headers handed to `ingest_ratelimit` (line 291), and the decoded 429 body
fields `global` (via `result.get("global", False)`), `message` (via
`result.get("message")`) and `retry_after` (accessed as
`float(result["retry_after"])`; `none` models a missing key, on which the
access raises `KeyError`). -/
structure Resp where
  status : Nat
  headers : Headers
  bodyGlobal : Bool
  bodyMessage : Option String
  bodyRetryAfter : Option Rat

/-- `self._max_attempts` (line 151). -/
def max_attempts : Nat := 3

/-- The typed exceptions `_raise_exception` and the loop can raise. -/
inductive HTTPError where
  | forbidden       -- 403 → `Forbidden`
  | notFound        -- 404 → `NotFound`
  | discordError    -- >= 500 → `DiscordError` (the ServerError of the spec)
  | httpException   -- any other non-2xx → `HTTPException`
  | valueError      -- non-numeric rate-limit header inside `ingest_ratelimit`
  | keyError        -- `result["retry_after"]` missing on a 429 body
deriving Repr, DecidableEq

/-- `HTTPClient._raise_exception` (lines 350-360): dispatch on status. -/
def raise_exception (status : Nat) : HTTPError :=
  if status = 403 then .forbidden
  else if status = 404 then .notFound
  else if 500 ≤ status then .discordError
  else .httpException

/-- Observable rate-limit actions of one loop iteration. -/
inductive RLAction where
  | globalLockFor (seconds : Rat)     -- `self.global_lock.lock(retry_after)` (line 302)
  | deferUnlockFor (seconds : Rat)    -- `lock.defer_unlock(retry_after)` (line 311)
  | deferUnlockDelta (seconds : Rat)  -- `lock.defer_unlock()`, uses `lock.delta` (line 320)
  | blindDeferUnlock (seconds : Rat)  -- `lock.blind_defer_unlock()` (line 327)
  | retrySleep (seconds : Nat)        -- `asyncio.sleep(1 + attempt * 2)` (line 334)
deriving Repr, DecidableEq

/-- Result of one loop iteration after the response arrived. -/
inductive StepResult where
  | retry (lock : BucketLock) (acts : List RLAction)   -- a `continue`
  | done (lock : BucketLock) (acts : List RLAction)    -- `return result`
  | raised (e : HTTPError) (lock : BucketLock) (acts : List RLAction)
deriving Repr, DecidableEq

/-- One iteration of the loop body after the response arrives (lines
291-343): ingest the rate-limit headers first, then the `if`/`elif` chain —
429 (global / resource / bucket), `elif lock.remaining == 0` (blind defer,
then fall through to the status check), `elif status in {500, 502, 504}`
(sleep and retry), then the non-2xx raise, else return. -/
def interpret (attempt : Nat) (lock : BucketLock) (r : Resp) : StepResult :=
  match ingest_ratelimit_header lock r.headers with
  | (lock1, some _) => .raised .valueError lock1 []
  | (lock1, none) =>
    if r.status = 429 then
      if r.bodyGlobal then
        match r.bodyRetryAfter with
        | none => .raised .keyError lock1 []
        | some t => .retry lock1 [.globalLockFor t]
      else if r.bodyMessage = some "The resource is being rate limited." then
        match r.bodyRetryAfter with
        | none => .raised .keyError lock1 []
        | some t => .retry lock1 [.deferUnlockFor t]
      else
        .retry lock1 [.deferUnlockDelta lock1.delta]
    else if lock1.remaining = 0 then
      if ¬ (200 ≤ r.status ∧ r.status < 300) then
        .raised (raise_exception r.status) lock1 [.blindDeferUnlock lock1.delta]
      else
        .done lock1 [.blindDeferUnlock lock1.delta]
    else if r.status = 500 ∨ r.status = 502 ∨ r.status = 504 then
      .retry lock1 [.retrySleep (1 + attempt * 2)]
    else if ¬ (200 ≤ r.status ∧ r.status < 300) then
      .raised (raise_exception r.status) lock1 []
    else
      .done lock1 []

/-- How a whole `request` call ends. -/
inductive ReqOutcome where
  | success                 -- `return result` on a 2xx
  | raised (e : HTTPError)  -- an exception propagated
  | returnedNone            -- the `for` loop exhausted its range: implicit `return None`
  | starved                 -- model artifact: the environment list ran out of responses
deriving Repr, DecidableEq

/-- Observable result of a `request` call: its outcome, the final bucket
state, the rate-limit actions performed, and how many sends happened. -/
structure RunResult where
  outcome : ReqOutcome
  lock : BucketLock
  trace : List RLAction
  sends : Nat
deriving Repr, DecidableEq

/-- The `for attempt in range(self._max_attempts)` loop (line 272):
`attempt` is the current loop index, `fuel` the iterations the range still
holds.  Falling off the range returns `None` (there is no raise after the
loop). -/
def runRequestAux (attempt fuel : Nat) (lock : BucketLock) (resps : List Resp)
    (trace : List RLAction) (sends : Nat) : RunResult :=
  match fuel with
  | 0 => ⟨.returnedNone, lock, trace, sends⟩
  | fuel' + 1 =>
    match resps with
    | [] => ⟨.starved, lock, trace, sends⟩
    | r :: rest =>
      match interpret attempt lock r with
      | .retry l a => runRequestAux (attempt + 1) fuel' l rest (trace ++ a) (sends + 1)
      | .done l a => ⟨.success, l, trace ++ a, sends + 1⟩
      | .raised e l a => ⟨.raised e, l, trace ++ a, sends + 1⟩

/-- A full `HTTPClient.request` call against a stream of responses. -/
def runRequest (lock : BucketLock) (resps : List Resp) : RunResult :=
  runRequestAux 0 max_attempts lock resps [] 0

/-- A 500 response with no rate-limit headers and an empty body. -/
def resp500 : Resp := ⟨500, [], false, none, none⟩

/-- A 429 response whose body reports `global: true, retry_after: 2.5`. -/
def respGlobal429 : Resp := ⟨429, [], true, none, some (5 / 2)⟩

/-- A 500 response whose headers set `x-ratelimit-remaining` to `0`. -/
def resp500rem0 : Resp := ⟨500, [("x-ratelimit-remaining", "0")], false, none, none⟩

/-! ## Payload processing (`HTTPClient._process_payload`, lines 197-234,
and the body-slot choice of `request`, lines 281-285) -/

/-- An uploadable attachment.  A `models.File` carries a `file_name` that is
passed as the form field's filename; other uploadables do not. -/
structure UploadFile where
  file_name : Option String
deriving DecidableEq, Repr

/-- A request payload: a dict (values opaque; `none` is Python's `None`) or a
list of dicts, matching the `dict | list[dict]` annotation of
`_process_payload`. -/
inductive Payload where
  | pdict (entries : List (String × Option String))
  | plist (items : List (List (String × Option String)))
deriving DecidableEq, Repr

/-- Modelled from the spec: `dict_filter` (from `naff.client.utils.serializer`,
not under `src/`) is the payload-serialization cleanup step of ASSEMBLE;
modelled as dropping entries whose value is `None`.  Its precise behaviour is
not load-bearing for any claim below. -/
def dict_filter (d : List (String × Option String)) : List (String × Option String) :=
  d.filter (fun p => p.2.isSome)

/-- Lines 214-217: filter a dict payload, or map the filter over a list. -/
def filterPayload : Payload → Payload
  | .pdict d => .pdict (dict_filter d)
  | .plist l => .plist (l.map dict_filter)

/-- One field of the multipart `FormData` built in lines 225-234: the
`payload_json` field holding the serialized payload, or a `files[index]`
field holding one attachment. -/
inductive FormField where
  | payloadJson (p : Payload)
  | fileField (index : Nat) (filename : Option String)
deriving DecidableEq, Repr

/-- Lines 228-233: one `files[index]` field per attachment, in order. -/
def fileFields (files : List UploadFile) : List FormField :=
  files.enum.map (fun p => .fileField p.1 p.2.file_name)

/-- Return value of `_process_payload`: `None`, a plain (JSON) payload, or a
multipart form. -/
inductive ProcessedPayload where
  | nonePayload
  | jsonPayload (p : Payload)
  | formPayload (fields : List FormField)
deriving DecidableEq, Repr

/-- `HTTPClient._process_payload` (lines 197-234): `None` passes through
before files are even considered; without files the filtered payload is
returned as-is; with files a `FormData` is built with `payload_json` first
and one `files[index]` field per attachment.  (`files` is already a list
here; the code wraps a bare single file into a singleton list.) -/
def process_payload (payload : Option Payload) (files : List UploadFile) :
    ProcessedPayload :=
  match payload with
  | none => .nonePayload
  | some p =>
    let filtered := filterPayload p
    if files.isEmpty then .jsonPayload filtered
    else .formPayload (.payloadJson filtered :: fileFields files)

/-- Where `request` puts the processed payload (lines 281-285): `FormData`
goes into `kwargs["data"]`, anything else into `kwargs["json"]`. -/
inductive BodySlot where
  | jsonSlot (p : Option Payload)
  | dataSlot (fields : List FormField)
deriving DecidableEq, Repr

/-- The body-encoding decision of one `request` call. -/
def requestBodySlot (payload : Option Payload) (files : List UploadFile) :
    BodySlot :=
  match process_payload payload files with
  | .formPayload fields => .dataSlot fields
  | .jsonPayload p => .jsonSlot (some p)
  | .nonePayload => .jsonSlot none

/-! ## Gateway close-code handling (`ConnectionState._ws_connect`,
`state.py` lines 99-126) -/

/-- How `await self.gateway.run()` (under the `async with GatewayClient`)
ends, as observed by `_ws_connect`'s exception handlers. -/
inductive GwRunResult where
  | normal
  | wsClosed (code : Nat)   -- a `WebSocketClosed` escaped
  | otherError              -- any other `Exception`
deriving DecidableEq, Repr

/-- The configuration errors `_ws_connect` raises as `NaffException`. -/
inductive ConfigErrKind where
  | shardingRequired    -- 4011: "Your bot is too large, you must use shards"
  | invalidIntents      -- 4013: "Invalid Intents have been passed: ..."
  | disallowedIntents   -- 4014: privileged intents not enabled/approved
deriving DecidableEq, Repr

/-- How `_ws_connect` itself ends. -/
inductive WsConnectOutcome where
  | returned                      -- fell through (incl. the generic-Exception path)
  | configError (k : ConfigErrKind)  -- raised `NaffException`
  | wsClosedRaised (code : Nat)   -- re-raised the `WebSocketClosed`
deriving DecidableEq, Repr

/-- Result of `_ws_connect` plus how many times a gateway connection was
started: the body starts `GatewayClient(...).run()` exactly once and contains
no retry loop, so every path reports one connection attempt. -/
structure WsConnectResult where
  outcome : WsConnectOutcome
  connectionAttempts : Nat
deriving DecidableEq, Repr

/-- `ConnectionState._ws_connect` (lines 99-126) as a function of how the
single `gateway.run()` call ends: `WebSocketClosed` with code 4011/4013/4014
becomes a typed `NaffException` (configuration error), any other close code
is re-raised, and any other exception is logged and swallowed after a
`Disconnect` dispatch.  No branch starts another connection. -/
def ws_connect (r : GwRunResult) : WsConnectResult :=
  match r with
  | .normal => ⟨.returned, 1⟩
  | .wsClosed c =>
    if c = 4011 then ⟨.configError .shardingRequired, 1⟩
    else if c = 4013 then ⟨.configError .invalidIntents, 1⟩
    else if c = 4014 then ⟨.configError .disallowedIntents, 1⟩
    else ⟨.wsClosedRaised c, 1⟩
  | .otherError => ⟨.returned, 1⟩

/-! ## Presence changes (`ConnectionState.change_presence`,
`state.py` lines 128-180) -/

/-- ASCII-uppercase a string, as `status.upper()` does on the ASCII member
names involved. -/
def strUpper (s : String) : List Char :=
  s.data.map Char.toUpper

/-- Modelled from the spec: the `ActivityType` enum
(`naff.models.discord.enums`, not under `src/`).  The bot-displayable
members named by `change_presence`'s docstring and allow-list are
game/streaming/listening/watching/competing; `custom` stands for the
members outside that allow-list. -/
inductive ActivityType where
  | game | streaming | listening | watching | competing | custom
deriving DecidableEq, Repr

/-- The allow-list of lines 153-159. -/
def displayableActivityType (t : ActivityType) : Bool :=
  match t with
  | .game | .streaming | .listening | .watching | .competing => true
  | .custom => false

/-- An `Activity` as `change_presence` inspects it: its type, its optional
`url`, and its display name. -/
structure Activity where
  atype : ActivityType
  url : Option String
  name : String
deriving DecidableEq, Repr

/-- Modelled from the spec: `Activity.create(name=str(x))`
(`naff.models.discord.activity`, not under `src/`) squashes a non-`Activity`
argument into a plain playing/`game` activity with that name. -/
def activityCreate (name : String) : Activity :=
  ⟨.game, none, name⟩

/-- The `status`/`activity` pair stored on the client (`client._status`,
`client._activity`); a status is represented by its uppercase member name. -/
structure ClientPresence where
  status : Option String
  activity : Option Activity
deriving DecidableEq, Repr

/-- The `status` argument: a `Status` member, a plain string, or `None`. -/
inductive StatusArg where
  | member (name : String)
  | str (s : String)
  | noneArg
deriving DecidableEq, Repr

/-- The `activity` argument: `MISSING` (the sentinel default), `None`, an
`Activity`, or anything else (squashed through `Activity.create`). -/
inductive ActivityArg where
  | missing
  | noneAct
  | act (a : Activity)
  | raw (s : String)
deriving DecidableEq, Repr

/-- `Status[name]` lookup (line 167): succeeds iff the uppercased string is a
member name; the member is represented by that name.  The member list is a
parameter because the `Status` enum lives outside `src/`. -/
def statusLookup (members : List String) (s : String) : Option String :=
  match List.find? (fun m => m.data == strUpper s) members with
  | some m => some m
  | none => none

/-- The one exception `change_presence` can raise (line 169). -/
inductive PresenceError where
  | valueErrorStatus (s : String)
deriving DecidableEq, Repr

/-- Observable result of a successful `change_presence` call: the updated
client fields, whether the update was forwarded over the gateway (line 180),
and how many warnings were logged. -/
structure PresenceResult where
  client : ClientPresence
  forwarded : Bool
  warnings : Nat
deriving DecidableEq, Repr

/-- The activity block (lines 142-162): resolve the argument to an optional
activity and count warnings.  A `None` argument becomes the empty activity
list, which is falsy and forwards as no activity. -/
def resolveActivity (cs : ClientPresence) (aArg : ActivityArg) :
    Option Activity × Nat :=
  match aArg with
  | .missing => (cs.activity, 0)
  | .noneAct => (none, 0)
  | .raw s => (some (activityCreate s), 0)   -- `game` is on the allow-list, no warning
  | .act a =>
    if a.atype = .streaming then
      (some a, if a.url = none then 1 else 0)
    else if displayableActivityType a.atype then
      (some a, 0)
    else
      (some a, 1)

/-- The status block (lines 164-176): a `Status` instance passes through; a
truthy (non-empty) string goes through `Status[s.upper()]`, whose `KeyError`
becomes `ValueError`; a falsy status (``None`` or the empty string) falls
back to the stored client status or to online with a warning. -/
def resolveStatus (members : List String) (cs : ClientPresence)
    (sArg : StatusArg) : Except PresenceError (String × Nat) :=
  match sArg with
  | .member m => .ok (m, 0)
  | .str s =>
    if s = "" then
      match cs.status with
      | some m => .ok (m, 0)
      | none => .ok ("ONLINE", 1)
    else
      match statusLookup members s with
      | some m => .ok (m, 0)
      | none => .error (.valueErrorStatus s)
  | .noneArg =>
    match cs.status with
    | some m => .ok (m, 0)
    | none => .ok ("ONLINE", 1)

/-- `ConnectionState.change_presence` (lines 128-180): activity block, then
status block (whose `ValueError` aborts the call before any client field is
written and before anything reaches the gateway), then the two assignments
and the gateway forward. -/
def change_presence (members : List String) (cs : ClientPresence)
    (sArg : StatusArg) (aArg : ActivityArg) :
    Except PresenceError PresenceResult :=
  let ra := resolveActivity cs aArg
  match resolveStatus members cs sArg with
  | .error e => .error e
  | .ok st => .ok ⟨⟨some st.1, ra.1⟩, true, ra.2 + st.2⟩

/-! ## Mutual exclusion of SEND phases under a shared `BucketLock`
(`BucketLock.__aenter__`/`__aexit__`, lines 120-126, and the `async with
lock:` around the transfer in `request`, lines 273-291)

A small transition system over `n` concurrent request tasks that share one
`BucketLock`.  The asyncio lock is its holder (`none` = free); a holder is
allowed only when the lock is free, which is the semantics of
`asyncio.Lock.acquire`.  A task acquires in `__aenter__`, performs its HTTP
transfer while holding the lock, and only after the transfer ends may the
lock be released — either in `__aexit__` (`unlock_on_exit`) or later by a
deferred unlock timer; both orderings are covered by a single release step
that fires no earlier than the end of the transfer. -/

/-- Where one request task stands relative to its shared bucket lock. -/
inductive SendPhase where
  | idle       -- before `async with lock`
  | waiting    -- suspended inside `lock.acquire()`
  | acquired   -- holds the lock; global throttle / payload processing
  | sending    -- the HTTP transfer (SEND) is in flight
  | finished   -- transfer done, response handling; still holds the lock
  | released   -- the lock has been given up (exit or deferred unlock)
deriving DecidableEq, Repr

/-- Global state: each task's phase plus the lock's holder. -/
structure BucketSysState (n : Nat) where
  phase : Fin n → SendPhase
  holder : Option (Fin n)

/-- All tasks about to issue a request, lock free. -/
def BucketSysState.init (n : Nat) : BucketSysState n :=
  ⟨fun _ => .idle, none⟩

/-- Interleaved execution steps of the tasks sharing the lock. -/
inductive BucketStep (n : Nat) : BucketSysState n → BucketSysState n → Prop where
  | start (s : BucketSysState n) (t : Fin n) :
      s.phase t = .idle →
      BucketStep n s ⟨Function.update s.phase t .waiting, s.holder⟩
  | acquire (s : BucketSysState n) (t : Fin n) :
      s.phase t = .waiting → s.holder = none →
      BucketStep n s ⟨Function.update s.phase t .acquired, some t⟩
  | beginSend (s : BucketSysState n) (t : Fin n) :
      s.phase t = .acquired →
      BucketStep n s ⟨Function.update s.phase t .sending, s.holder⟩
  | endSend (s : BucketSysState n) (t : Fin n) :
      s.phase t = .sending →
      BucketStep n s ⟨Function.update s.phase t .finished, s.holder⟩
  | release (s : BucketSysState n) (t : Fin n) :
      s.phase t = .finished → s.holder = some t →
      BucketStep n s ⟨Function.update s.phase t .released, none⟩

/-- Reachability from the initial state. -/
def BucketReachable (n : Nat) (s : BucketSysState n) : Prop :=
  Relation.ReflTransGen (BucketStep n) (BucketSysState.init n) s

/-- A task in one of these phases is inside the `async with lock` region. -/
def holdsLock (s : BucketSysState n) (t : Fin n) : Prop :=
  s.phase t = .acquired ∨ s.phase t = .sending ∨ s.phase t = .finished

/-! ## The global hard lock blocking all sends
(`GlobalLock`, lines 45-68, and the `rate_limit()` call before every
transfer, line 275)

`GlobalLock.lock(delta)` and `GlobalLock.rate_limit()` contend for the same
`asyncio.Lock`.  Time is a discrete clock; `lock(delta)` holds the mutex and
may release it no earlier than `delta` ticks later (the `await
asyncio.sleep(delta)` between acquire and release).  `rate_limit()`'s
acquire/token/release is one step that requires the mutex to be free.  Every
request must pass `rate_limit()` before its transfer. -/

/-- Where one request task stands relative to the global lock. -/
inductive GPhase where
  | idle        -- has not yet reached `await self.global_lock.rate_limit()`
  | atThrottle  -- suspended inside `rate_limit()` on the shared mutex
  | throttled   -- `rate_limit()` returned; the transfer may start
  | sent        -- the HTTP transfer has been issued
deriving DecidableEq, Repr

/-- The shared mutex of `GlobalLock`: free, or held by `lock(delta)` until
the stated clock value. -/
inductive GMutex where
  | free
  | hard (expiry : Nat)
deriving DecidableEq, Repr

/-- Global state: the clock, the mutex, each task's phase. -/
structure GlobalSysState (n : Nat) where
  clock : Nat
  mutex : GMutex
  phase : Fin n → GPhase

/-- Interleaved steps.  `hardRelease` is guarded by the clock having reached
the expiry: the `asyncio.sleep(delta)` inside `GlobalLock.lock` cannot
complete earlier. -/
inductive GlobalStep (n : Nat) : GlobalSysState n → GlobalSysState n → Prop where
  | tick (s : GlobalSysState n) :
      GlobalStep n s ⟨s.clock + 1, s.mutex, s.phase⟩
  | hardAcquire (s : GlobalSysState n) (delta : Nat) :
      s.mutex = .free →
      GlobalStep n s ⟨s.clock, .hard (s.clock + delta), s.phase⟩
  | hardRelease (s : GlobalSysState n) (u : Nat) :
      s.mutex = .hard u → u ≤ s.clock →
      GlobalStep n s ⟨s.clock, .free, s.phase⟩
  | reachThrottle (s : GlobalSysState n) (t : Fin n) :
      s.phase t = .idle →
      GlobalStep n s ⟨s.clock, s.mutex, Function.update s.phase t .atThrottle⟩
  | passThrottle (s : GlobalSysState n) (t : Fin n) :
      s.phase t = .atThrottle → s.mutex = .free →
      GlobalStep n s ⟨s.clock, s.mutex, Function.update s.phase t .throttled⟩
  | send (s : GlobalSysState n) (t : Fin n) :
      s.phase t = .throttled →
      GlobalStep n s ⟨s.clock, s.mutex, Function.update s.phase t .sent⟩

/-- Multi-step execution. -/
def GlobalSteps (n : Nat) : GlobalSysState n → GlobalSysState n → Prop :=
  Relation.ReflTransGen (GlobalStep n)

/-- The bucket-lock safety invariant: any task inside the `async with lock`
region is the lock's registered holder. -/
def lockInv (n : Nat) (s : BucketSysState n) : Prop :=
  ∀ t : Fin n, holdsLock s t → s.holder = some t

/-- Concrete two-task run, step 1: task 0 reaches `lock.acquire()`. -/
def bw1 : BucketSysState 2 :=
  ⟨Function.update (BucketSysState.init 2).phase 0 .waiting, none⟩

/-- Concrete two-task run, step 2: task 0 acquires the bucket lock. -/
def bw2 : BucketSysState 2 :=
  ⟨Function.update bw1.phase 0 .acquired, some 0⟩

/-- Concrete two-task run, step 3: task 0 starts its HTTP transfer. -/
def bw3 : BucketSysState 2 :=
  ⟨Function.update bw2.phase 0 .sending, bw2.holder⟩

/-- Concrete global-lock state: hard lock held until clock 5, one request
suspended at the throttle. -/
def gw0 : GlobalSysState 1 := ⟨0, .hard 5, fun _ => .atThrottle⟩

/-- `gw0` after one clock tick. -/
def gw1 : GlobalSysState 1 := ⟨1, .hard 5, fun _ => .atThrottle⟩

end NaffModel

namespace NaffModel

/-- C6: `ingest_ratelimit_header` is idempotent — a second application with
the identical header map reproduces the same bucket state (hash, limit,
remaining, delta) and the same raise/no-raise outcome, because every field
an application writes is a function of the header alone, and which fields
are written is decided by the header alone. -/
theorem ingest_ratelimit_header_idempotent (b : BucketLock) (h : Headers) :
    ingest_ratelimit_header (ingest_ratelimit_header b h).1 h =
      ingest_ratelimit_header b h := by
  unfold ingest_ratelimit_header
  cases b
  cases parseLimit h <;> cases parseRemaining h <;> cases parseResetAfter h <;> rfl

/-- C7 counterexample: `ingest_ratelimit_header` is not raise-free — a header
map carrying a non-numeric `x-ratelimit-limit` makes the `int()` conversion
on line 104 raise `ValueError`, refuting "never raises". -/
theorem ingest_header_non_numeric_raises :
    (ingest_ratelimit_header BucketLock.init [("x-ratelimit-limit", "abc")]).2 =
      some "ValueError: invalid literal for int()" := by decide

/-- C7 (amended): `ingest_ratelimit_header` completes without raising exactly
when the three numeric conversions succeed — i.e. whenever
`x-ratelimit-limit` and `x-ratelimit-remaining` are absent, empty, or valid
integer literals, and `x-ratelimit-reset-after` is absent or a valid float
literal. -/
theorem ingest_header_no_raise_when_numeric (b : BucketLock) (h : Headers)
    (hl : (parseLimit h).isSome) (hr : (parseRemaining h).isSome)
    (hd : (parseResetAfter h).isSome) :
    (ingest_ratelimit_header b h).2 = none := by
  rcases Option.isSome_iff_exists.mp hl with ⟨lim, el⟩
  rcases Option.isSome_iff_exists.mp hr with ⟨rem, er⟩
  rcases Option.isSome_iff_exists.mp hd with ⟨d, ed⟩
  simp [ingest_ratelimit_header, el, er, ed]

/-- A header map with all four rate-limit keys present and numeric (keys in
mixed case, exercising the case-insensitive multidict lookup). -/
def hdrNumeric : Headers :=
  [("X-RateLimit-Bucket", "abc123"), ("X-RateLimit-Limit", "5"),
   ("X-RateLimit-Remaining", "4"), ("X-RateLimit-Reset-After", "1.5")]

/-- C7 witness: the amended no-raise theorem applied to a concrete numeric
header map. -/
theorem ingest_header_no_raise_witness :
    (parseLimit hdrNumeric).isSome ∧ (parseRemaining hdrNumeric).isSome ∧
      (parseResetAfter hdrNumeric).isSome ∧
      (ingest_ratelimit_header BucketLock.init hdrNumeric).2 = none :=
  ⟨by decide, by decide, by decide,
    ingest_header_no_raise_when_numeric BucketLock.init hdrNumeric
      (by decide) (by decide) (by decide)⟩

/-- Helper: under a {500, 502, 504} status, a clean header ingest and a
non-zero post-ingest `remaining`, one loop iteration sleeps `1 + attempt*2`
and retries (lines 329-335). -/
theorem interpret_retryable_5xx (a : Nat) (b : BucketLock) (r : Resp)
    (hs : r.status = 500 ∨ r.status = 502 ∨ r.status = 504)
    (he : (ingest_ratelimit_header b r.headers).2 = none)
    (hr : (ingest_ratelimit_header b r.headers).1.remaining ≠ 0) :
    interpret a b r =
      .retry (ingest_ratelimit_header b r.headers).1 [.retrySleep (1 + a * 2)] := by
  have h429 : ¬ r.status = 429 := by rcases hs with h | h | h <;> simp [h]
  unfold interpret
  rcases hp : ingest_ratelimit_header b r.headers with ⟨l1, e1⟩
  rw [hp] at he hr
  simp only at he
  subst he
  simp [h429, hr, hs]

/-- Helper: a retrying iteration advances both the loop index and the
remaining range of the `for` loop. -/
theorem runRequestAux_retry (a fuel : Nat) (l l1 : BucketLock) (r : Resp)
    (rest : List Resp) (tr acts : List RLAction) (sd : Nat)
    (h : interpret a l r = .retry l1 acts) :
    runRequestAux a (fuel + 1) l (r :: rest) tr sd =
      runRequestAux (a + 1) fuel l1 rest (tr ++ acts) (sd + 1) := by
  simp [runRequestAux, h]

/-- C2 counterexample: three consecutive 500 responses (clean headers,
`remaining` unknown) exhaust the `for attempt in range(3)` loop, after which
`request` falls off the loop and implicitly returns `None` — no
`DiscordError` (ServerError) is raised.  The trace shows the three backoff
sleeps of 1, 3 and 5 seconds. -/
theorem request_three_500s_returns_none :
    runRequest BucketLock.init [resp500, resp500, resp500] =
      ⟨.returnedNone, BucketLock.init,
        [.retrySleep 1, .retrySleep 3, .retrySleep 5], 3⟩ := by decide

/-- C2 (amended): when every one of the three attempts receives a retryable
server-error status (500, 502 or 504) with cleanly ingesting headers and a
non-zero `remaining`, `request` retries with backoff sleeps 1, 3, 5 and then
returns `None` normally instead of surfacing a typed error. -/
theorem request_retryable_5xx_returns_none (b : BucketLock) (r1 r2 r3 : Resp)
    (h1s : r1.status = 500 ∨ r1.status = 502 ∨ r1.status = 504)
    (h2s : r2.status = 500 ∨ r2.status = 502 ∨ r2.status = 504)
    (h3s : r3.status = 500 ∨ r3.status = 502 ∨ r3.status = 504)
    (h1e : (ingest_ratelimit_header b r1.headers).2 = none)
    (h1r : (ingest_ratelimit_header b r1.headers).1.remaining ≠ 0)
    (h2e : (ingest_ratelimit_header (ingest_ratelimit_header b r1.headers).1
      r2.headers).2 = none)
    (h2r : (ingest_ratelimit_header (ingest_ratelimit_header b r1.headers).1
      r2.headers).1.remaining ≠ 0)
    (h3e : (ingest_ratelimit_header (ingest_ratelimit_header
      (ingest_ratelimit_header b r1.headers).1 r2.headers).1 r3.headers).2 = none)
    (h3r : (ingest_ratelimit_header (ingest_ratelimit_header
      (ingest_ratelimit_header b r1.headers).1 r2.headers).1
      r3.headers).1.remaining ≠ 0) :
    (runRequest b [r1, r2, r3]).outcome = .returnedNone ∧
      (runRequest b [r1, r2, r3]).trace =
        [.retrySleep 1, .retrySleep 3, .retrySleep 5] := by
  have e1 := interpret_retryable_5xx 0 b r1 h1s h1e h1r
  have e2 := interpret_retryable_5xx 1 _ r2 h2s h2e h2r
  have e3 := interpret_retryable_5xx 2 _ r3 h3s h3e h3r
  have u0 : runRequest b [r1, r2, r3] =
      runRequestAux 1 2 (ingest_ratelimit_header b r1.headers).1 [r2, r3]
        ([] ++ [.retrySleep (1 + 0 * 2)]) 1 :=
    runRequestAux_retry 0 2 b _ r1 [r2, r3] [] _ 0 e1
  rw [u0, runRequestAux_retry 1 1 _ _ r2 [r3] _ _ 1 e2,
    runRequestAux_retry 2 0 _ _ r3 [] _ _ 2 e3]
  simp [runRequestAux]

/-- C2 witness: the amended theorem applied to three concrete 500
responses. -/
theorem request_retryable_5xx_returns_none_witness :
    (resp500.status = 500 ∨ resp500.status = 502 ∨ resp500.status = 504) ∧
      (runRequest BucketLock.init [resp500, resp500, resp500]).outcome =
        .returnedNone :=
  ⟨Or.inl rfl,
    (request_retryable_5xx_returns_none BucketLock.init resp500 resp500 resp500
      (Or.inl rfl) (Or.inl rfl) (Or.inl rfl) (by decide) (by decide)
      (by decide) (by decide) (by decide) (by decide)).1⟩

/-- C3 counterexample: a 500 response whose headers set `remaining` to 0 hits
the `elif lock.remaining == 0` row (line 322) — which, being an `elif` of the
same chain, PREEMPTS the `elif response.status in {500, 502, 504}` row.  The
deferred unlock is scheduled and control falls to the status check, so
`DiscordError` is raised on the first attempt: no `1 + 2*attempt` sleep, no
retry, contradicting the claimed fall-through to the server-error row. -/
theorem request_500_remaining0_no_retry :
    runRequest BucketLock.init [resp500rem0] =
      ⟨.raised .discordError, ⟨none, -1, 0, 0⟩, [.blindDeferUnlock 0], 1⟩ := by
  decide

/-- C3 (amended): on a non-429 response with status in {500, 502, 504} whose
ingested headers leave `remaining == 0`, the dispatcher schedules the
non-blocking deferred unlock for the reset delay and then raises the typed
server error immediately — the `remaining == 0` row preempts the 500-retry
row, so no backoff sleep and no retry happen. -/
theorem request_5xx_remaining0_raises (b : BucketLock) (r : Resp)
    (rest : List Resp)
    (hs : r.status = 500 ∨ r.status = 502 ∨ r.status = 504)
    (he : (ingest_ratelimit_header b r.headers).2 = none)
    (hr : (ingest_ratelimit_header b r.headers).1.remaining = 0) :
    runRequest b (r :: rest) =
      ⟨.raised .discordError, (ingest_ratelimit_header b r.headers).1,
        [.blindDeferUnlock (ingest_ratelimit_header b r.headers).1.delta], 1⟩ := by
  have h429 : ¬ r.status = 429 := by rcases hs with h | h | h <;> simp [h]
  have hno2xx : ¬ (200 ≤ r.status ∧ r.status < 300) := by
    rcases hs with h | h | h <;> simp [h]
  have hraise : raise_exception r.status = .discordError := by
    rcases hs with h | h | h <;> simp [raise_exception, h]
  have hi : interpret 0 b r =
      .raised .discordError (ingest_ratelimit_header b r.headers).1
        [.blindDeferUnlock (ingest_ratelimit_header b r.headers).1.delta] := by
    unfold interpret
    rcases hp : ingest_ratelimit_header b r.headers with ⟨l1, e1⟩
    rw [hp] at he hr
    simp only at he
    subst he
    have hr1 : l1.remaining = 0 := hr
    simp [h429, hr1, hno2xx, hraise]
  show runRequestAux 0 (2 + 1) b (r :: rest) [] 0 = _
  simp [runRequestAux, hi]

/-- C3 witness: the amended theorem applied to the concrete 500 response with
`x-ratelimit-remaining: 0`. -/
theorem request_5xx_remaining0_raises_witness :
    (resp500rem0.status = 500 ∨ resp500rem0.status = 502 ∨
        resp500rem0.status = 504) ∧
      runRequest BucketLock.init [resp500rem0] =
        ⟨.raised .discordError,
          (ingest_ratelimit_header BucketLock.init resp500rem0.headers).1,
          [.blindDeferUnlock
            (ingest_ratelimit_header BucketLock.init resp500rem0.headers).1.delta],
          1⟩ :=
  ⟨Or.inl rfl,
    request_5xx_remaining0_raises BucketLock.init resp500rem0 []
      (Or.inl rfl) (by decide) (by decide)⟩

/-- C4 counterexample: a global 429 followed by three 500s.  After the
global-429 retry only two loop iterations remain: the run performs 3 sends
in total (the fourth supplied response is never requested) and the first
post-global backoff sleep is `1 + 1*2 = 3` seconds, showing the `continue`
on line 303 advanced the `for attempt in range(3)` index — the attempt
budget was NOT left unchanged. -/
theorem request_global_429_budget_shrinks :
    runRequest BucketLock.init [respGlobal429, resp500, resp500, resp500] =
      ⟨.returnedNone, BucketLock.init,
        [.globalLockFor (5 / 2), .retrySleep 3, .retrySleep 5], 3⟩ := by rfl

/-- C4 (amended): a 429 whose body reports the global limit invokes
`global_lock.lock(retry_after)` and retries — but the retry consumes one of
the 3 attempts: the loop resumes at attempt index 1 with only
`max_attempts - 1 = 2` iterations left. -/
theorem request_global_429_consumes_attempt (b : BucketLock) (r : Resp)
    (rest : List Resp) (t : Rat)
    (hs : r.status = 429) (hg : r.bodyGlobal = true)
    (ht : r.bodyRetryAfter = some t)
    (he : (ingest_ratelimit_header b r.headers).2 = none) :
    runRequest b (r :: rest) =
      runRequestAux 1 (max_attempts - 1) (ingest_ratelimit_header b r.headers).1
        rest [.globalLockFor t] 1 := by
  have hi : interpret 0 b r =
      .retry (ingest_ratelimit_header b r.headers).1 [.globalLockFor t] := by
    unfold interpret
    rcases hp : ingest_ratelimit_header b r.headers with ⟨l1, e1⟩
    rw [hp] at he
    simp only at he
    subst he
    simp [hs, hg, ht]
  show runRequestAux 0 (2 + 1) b (r :: rest) [] 0 = _
  rw [runRequestAux_retry 0 2 b _ r rest [] _ 0 hi]
  rfl

/-- C4 witness: the amended theorem applied to the concrete global-429
response (`retry_after: 2.5`). -/
theorem request_global_429_consumes_attempt_witness :
    respGlobal429.status = 429 ∧
      runRequest BucketLock.init [respGlobal429] =
        runRequestAux 1 (max_attempts - 1)
          (ingest_ratelimit_header BucketLock.init respGlobal429.headers).1 []
          [.globalLockFor (5 / 2)] 1 :=
  ⟨rfl,
    request_global_429_consumes_attempt BucketLock.init respGlobal429 [] (5 / 2)
      rfl rfl rfl (by decide)⟩

/-- C8: a gateway close with code 4011, 4013 or 4014 makes `_ws_connect`
raise a typed `NaffException` configuration error — 4011 names sharding,
4013 and 4014 name intents (4013 in particular surfaces as the
invalid-intents configuration error) — and no second connection attempt is
started (the body runs `gateway.run()` exactly once and has no retry
path). -/
theorem ws_connect_fatal_close_codes (c : Nat)
    (h : c = 4011 ∨ c = 4013 ∨ c = 4014) :
    (ws_connect (.wsClosed c)).outcome =
      .configError (if c = 4011 then .shardingRequired
        else if c = 4013 then .invalidIntents else .disallowedIntents) ∧
      (ws_connect (.wsClosed c)).connectionAttempts = 1 := by
  rcases h with h | h | h <;> subst h <;> exact ⟨rfl, rfl⟩

/-- C8 witness: the fatal-close-code theorem applied at code 4013: the
outcome is the invalid-intents configuration error with one (the original)
connection attempt. -/
theorem ws_connect_fatal_close_codes_witness :
    ((4013 : Nat) = 4011 ∨ (4013 : Nat) = 4013 ∨ (4013 : Nat) = 4014) ∧
      (ws_connect (.wsClosed 4013)).outcome = .configError .invalidIntents ∧
      (ws_connect (.wsClosed 4013)).connectionAttempts = 1 := by
  have h := ws_connect_fatal_close_codes 4013 (Or.inr (Or.inl rfl))
  exact ⟨Or.inr (Or.inl rfl), by simpa using h.1, h.2⟩

/-- C9 counterexample: with attachments present but `payload=None`,
`_process_payload` returns `None` on its first line (line 211) before files
are considered, and `request` then sends `kwargs["json"] = None` — no
multipart form, no `payload_json`, no `files[i]` fields, refuting "for every
request call in which binary attachments are present". -/
theorem request_files_without_payload_sends_json :
    requestBodySlot none [⟨some "image.png"⟩] = .jsonSlot none := by rfl

/-- C9 (amended): whenever the payload is not `None` and attachments are
present, the body is the multipart form — `payload_json` holding the
(filtered) JSON payload followed by one `files[i]` field per attachment —
placed in `kwargs["data"]`; by constructor disjointness of `BodySlot` it is
never simultaneously plain JSON. -/
theorem request_multipart_when_payload_and_files (p : Payload)
    (files : List UploadFile) (hf : files ≠ []) :
    requestBodySlot (some p) files =
      .dataSlot (.payloadJson (filterPayload p) :: fileFields files) := by
  cases files with
  | nil => exact absurd rfl hf
  | cons f fs => rfl

/-- C9 witness: the multipart theorem applied to a concrete payload and a
single named attachment. -/
theorem request_multipart_when_payload_and_files_witness :
    ([(⟨some "image.png"⟩ : UploadFile)] ≠ []) ∧
      requestBodySlot (some (.pdict [("content", some "hi")]))
          [⟨some "image.png"⟩] =
        .dataSlot [.payloadJson (.pdict [("content", some "hi")]),
          .fileField 0 (some "image.png")] :=
  ⟨by decide,
    request_multipart_when_payload_and_files (.pdict [("content", some "hi")])
      [⟨some "image.png"⟩] (by decide)⟩

/-- C10 counterexample: the empty string names no `Status` member, yet
`change_presence` does not raise — `if status:` (line 164) treats `""` as
falsy, so the member lookup is skipped, the stored client status is used,
and the presence update is forwarded anyway. -/
theorem change_presence_empty_string_no_raise :
    change_presence ["ONLINE", "OFFLINE", "DND", "IDLE", "INVISIBLE"]
        ⟨some "DND", none⟩ (.str "") .missing =
      .ok ⟨⟨some "DND", none⟩, true, 0⟩ := by rfl

/-- C10 (amended): a NON-EMPTY string that does not case-insensitively name
a `Status` member makes `change_presence` raise `ValueError` — the `Except`
error carries no updated client state and no gateway forward, i.e. the raise
happens before either — while a disallowed (non-displayable, non-streaming)
activity type merely logs one warning: the call succeeds, stores the
status/activity and forwards the presence. -/
theorem change_presence_status_raises_activity_warns (members : List String)
    (cs : ClientPresence) (s : String) (aArg : ActivityArg) (m : String)
    (a : Activity)
    (hs : s ≠ "") (hlk : statusLookup members s = none)
    (hstream : a.atype ≠ .streaming)
    (hbad : displayableActivityType a.atype = false) :
    change_presence members cs (.str s) aArg = .error (.valueErrorStatus s) ∧
      change_presence members cs (.member m) (.act a) =
        .ok ⟨⟨some m, some a⟩, true, 1⟩ := by
  constructor
  · simp [change_presence, resolveStatus, hs, hlk]
  · simp [change_presence, resolveActivity, resolveStatus, hstream, hbad]

/-- C10 witness: the validation theorem applied to the unknown status string
`"bogus"` and a custom-typed activity. -/
theorem change_presence_validation_witness :
    ("bogus" ≠ "") ∧
      statusLookup ["ONLINE", "OFFLINE", "DND", "IDLE", "INVISIBLE"] "bogus" =
        none ∧
      change_presence ["ONLINE", "OFFLINE", "DND", "IDLE", "INVISIBLE"]
          ⟨none, none⟩ (.str "bogus") .missing =
        .error (.valueErrorStatus "bogus") ∧
      change_presence ["ONLINE", "OFFLINE", "DND", "IDLE", "INVISIBLE"]
          ⟨none, none⟩ (.member "ONLINE") (.act ⟨.custom, none, "x"⟩) =
        .ok ⟨⟨some "ONLINE", some ⟨.custom, none, "x"⟩⟩, true, 1⟩ :=
  ⟨by decide, by decide,
    (change_presence_status_raises_activity_warns
      ["ONLINE", "OFFLINE", "DND", "IDLE", "INVISIBLE"] ⟨none, none⟩ "bogus"
      .missing "ONLINE" ⟨.custom, none, "x"⟩ (by decide) (by decide)
      (by decide) (by decide)).1,
    (change_presence_status_raises_activity_warns
      ["ONLINE", "OFFLINE", "DND", "IDLE", "INVISIBLE"] ⟨none, none⟩ "bogus"
      .missing "ONLINE" ⟨.custom, none, "x"⟩ (by decide) (by decide)
      (by decide) (by decide)).2⟩

/-- Helper: the invariant holds initially — no task is inside the lock
region. -/
theorem lockInv_init (n : Nat) : lockInv n (BucketSysState.init n) := by
  intro t ht
  rcases ht with h | h | h <;> simp [BucketSysState.init] at h

/-- Helper: every step of the bucket-lock system preserves the invariant,
the acquire step being enabled only on a free lock
(`asyncio.Lock` semantics used by `BucketLock.__aenter__`). -/
theorem lockInv_step {n : Nat} {s s' : BucketSysState n}
    (h : BucketStep n s s') (inv : lockInv n s) : lockInv n s' := by
  cases h with
  | start t0 h0 =>
    intro t ht
    by_cases he : t = t0
    · subst he
      rcases ht with h1 | h1 | h1 <;> simp [holdsLock, Function.update] at h1
    · rcases ht with h1 | h1 | h1 <;>
        · rw [show (⟨Function.update s.phase t0 .waiting, s.holder⟩ :
              BucketSysState n).phase t = s.phase t from Function.update_noteq he _ _] at h1
          exact inv t (by simp [holdsLock, h1])
  | acquire t0 h0 hfree =>
    intro t ht
    by_cases he : t = t0
    · subst he; rfl
    · rcases ht with h1 | h1 | h1 <;>
        · rw [show (⟨Function.update s.phase t0 .acquired, some t0⟩ :
              BucketSysState n).phase t = s.phase t from Function.update_noteq he _ _] at h1
          have := inv t (by simp [holdsLock, h1])
          rw [hfree] at this
          exact absurd this (by simp)
  | beginSend t0 h0 =>
    intro t ht
    by_cases he : t = t0
    · subst he
      exact inv t (by simp [holdsLock, h0])
    · rcases ht with h1 | h1 | h1 <;>
        · rw [show (⟨Function.update s.phase t0 .sending, s.holder⟩ :
              BucketSysState n).phase t = s.phase t from Function.update_noteq he _ _] at h1
          exact inv t (by simp [holdsLock, h1])
  | endSend t0 h0 =>
    intro t ht
    by_cases he : t = t0
    · subst he
      exact inv t (by simp [holdsLock, h0])
    · rcases ht with h1 | h1 | h1 <;>
        · rw [show (⟨Function.update s.phase t0 .finished, s.holder⟩ :
              BucketSysState n).phase t = s.phase t from Function.update_noteq he _ _] at h1
          exact inv t (by simp [holdsLock, h1])
  | release t0 h0 hold =>
    intro t ht
    by_cases he : t = t0
    · subst he
      rcases ht with h1 | h1 | h1 <;> simp [holdsLock, Function.update] at h1
    · rcases ht with h1 | h1 | h1 <;>
        · rw [show (⟨Function.update s.phase t0 .released, none⟩ :
              BucketSysState n).phase t = s.phase t from Function.update_noteq he _ _] at h1
          have := inv t (by simp [holdsLock, h1])
          rw [hold] at this
          exact absurd (Option.some.inj this) (Ne.symm he)

/-- Helper: the invariant holds in every reachable state. -/
theorem lockInv_reachable (n : Nat) (s : BucketSysState n)
    (h : BucketReachable n s) : lockInv n s := by
  induction h with
  | refl => exact lockInv_init n
  | tail _ hstep ih => exact lockInv_step hstep ih

/-- C1: in every reachable interleaving of `n` concurrent requests sharing
one `BucketLock`, at most one task is in its SEND phase at any time — a task
transfers only while inside `async with lock`, the lock has at most one
holder, and no release (`__aexit__` or a deferred unlock) can fire before
the transfer has finished. -/
theorem bucket_send_mutual_exclusion (n : Nat) (s : BucketSysState n)
    (hs : BucketReachable n s) (t1 t2 : Fin n)
    (h1 : s.phase t1 = .sending) (h2 : s.phase t2 = .sending) :
    t1 = t2 := by
  have inv := lockInv_reachable n s hs
  have e1 := inv t1 (Or.inr (Or.inl h1))
  have e2 := inv t2 (Or.inr (Or.inl h2))
  exact Option.some.inj (e1.symm.trans e2)

/-- C1 witness: a concrete two-task execution in which task 0 starts,
acquires the shared lock and begins its transfer; the mutual-exclusion
theorem applied there. -/
theorem bucket_send_mutual_exclusion_witness :
    BucketReachable 2 bw3 ∧ bw3.phase 0 = .sending ∧ (0 : Fin 2) = 0 := by
  have h1 : BucketStep 2 (BucketSysState.init 2) bw1 :=
    .start (BucketSysState.init 2) 0 rfl
  have h2 : BucketStep 2 bw1 bw2 := .acquire bw1 0 (by decide) rfl
  have h3 : BucketStep 2 bw2 bw3 := .beginSend bw2 0 (by decide)
  have hr : BucketReachable 2 bw3 :=
    Relation.ReflTransGen.tail
      (Relation.ReflTransGen.tail (Relation.ReflTransGen.tail
        Relation.ReflTransGen.refl h1) h2) h3
  exact ⟨hr, by decide,
    bucket_send_mutual_exclusion 2 bw3 hr 0 0 (by decide) (by decide)⟩

/-- Helper: no step moves the clock backwards. -/
theorem globalStep_clock_mono {n : Nat} {s s' : GlobalSysState n}
    (h : GlobalStep n s s') : s.clock ≤ s'.clock := by
  cases h <;> simp

/-- Helper: multi-step clock monotonicity. -/
theorem globalSteps_clock_mono {n : Nat} {s s' : GlobalSysState n}
    (h : GlobalSteps n s s') : s.clock ≤ s'.clock := by
  induction h with
  | refl => exact le_refl _
  | tail _ hstep ih => exact le_trans ih (globalStep_clock_mono hstep)

/-- Helper: while the clock has not reached the hard lock's expiry, the
mutex stays hard-held and a task that had not yet passed the global throttle
still has not — `hardRelease` is guarded by the expiry, and `passThrottle`
requires a free mutex. -/
theorem hard_lock_window_invariant {n : Nat} {s s' : GlobalSysState n}
    {u : Nat} {t : Fin n}
    (hm : s.mutex = .hard u)
    (hp : s.phase t = .idle ∨ s.phase t = .atThrottle)
    (hs : GlobalSteps n s s') (hc : s'.clock < u) :
    s'.mutex = .hard u ∧ (s'.phase t = .idle ∨ s'.phase t = .atThrottle) := by
  induction hs with
  | refl => exact ⟨hm, hp⟩
  | @tail b c hsb hstep ih =>
    have hbc : b.clock ≤ c.clock := globalStep_clock_mono hstep
    have hb : b.clock < u := lt_of_le_of_lt hbc hc
    obtain ⟨ibm, ibp⟩ := ih hb
    cases hstep with
    | tick => exact ⟨ibm, ibp⟩
    | hardAcquire delta hfree => rw [ibm] at hfree; cases hfree
    | hardRelease u1 hheld hexp =>
      rw [ibm] at hheld
      have : u1 = u := (GMutex.hard.inj hheld).symm
      subst this
      exact absurd (lt_of_le_of_lt hexp hb) (lt_irrefl _)
    | reachThrottle t1 h1 =>
      refine ⟨ibm, ?_⟩
      by_cases he : t = t1
      · subst he
        exact Or.inr (Function.update_same t .atThrottle b.phase)
      · rw [show (⟨b.clock, b.mutex, Function.update b.phase t1 .atThrottle⟩ :
            GlobalSysState n).phase t = b.phase t from Function.update_noteq he _ _]
        exact ibp
    | passThrottle t1 h1 hfree => rw [ibm] at hfree; cases hfree
    | send t1 h1 =>
      refine ⟨ibm, ?_⟩
      by_cases he : t = t1
      · subst he
        rcases ibp with h2 | h2 <;> rw [h2] at h1 <;> cases h1
      · rw [show (⟨b.clock, b.mutex, Function.update b.phase t1 .sent⟩ :
            GlobalSysState n).phase t = b.phase t from Function.update_noteq he _ _]
        exact ibp

/-- C5: once `GlobalLock.lock(delta)` holds the shared mutex with expiry `u`,
then for as long as the clock has not reached `u` (i.e. for the whole
`retry_after` window) the hard lock remains held, and every request that had
not yet passed its global-throttle step stays at or before `rate_limit()` —
in particular it cannot reach its SEND phase — because `rate_limit()`
suspends on the same mutex and the `asyncio.sleep(delta)` inside `lock`
cannot complete before the expiry. -/
theorem global_hard_lock_blocks_sends (n : Nat) (s s' : GlobalSysState n)
    (u : Nat) (t : Fin n)
    (hm : s.mutex = .hard u)
    (hp : s.phase t = .idle ∨ s.phase t = .atThrottle)
    (hs : GlobalSteps n s s') (hc : s'.clock < u) :
    s'.mutex = .hard u ∧ (s'.phase t = .idle ∨ s'.phase t = .atThrottle) ∧
      s'.phase t ≠ .sent := by
  obtain ⟨h1, h2⟩ := hard_lock_window_invariant hm hp hs hc
  refine ⟨h1, h2, ?_⟩
  rcases h2 with h | h <;> simp [h]

/-- C5 witness: the hard lock acquired until clock 5 with one request at the
throttle; after a tick the window theorem shows the lock still held, the
request still throttled and not sent. -/
theorem global_hard_lock_blocks_sends_witness :
    gw0.mutex = .hard 5 ∧ gw1.clock < 5 ∧
      (gw1.mutex = .hard 5 ∧
        (gw1.phase 0 = .idle ∨ gw1.phase 0 = .atThrottle) ∧
        gw1.phase 0 ≠ .sent) := by
  have hstep : GlobalStep 1 gw0 gw1 := .tick gw0
  have hs : GlobalSteps 1 gw0 gw1 := Relation.ReflTransGen.tail .refl hstep
  exact ⟨rfl, by decide,
    global_hard_lock_blocks_sends 1 gw0 gw1 5 0 rfl (Or.inr rfl) hs (by decide)⟩

end NaffModel
